import Mathlib

/-!
Verification development for the PUBG YouTube collaboration-analysis pipeline.

The definitions below are a shallow embedding of the classification core of
the repository: the rule engine (`_rule_based_classify`, `_guess_category`,
`_guess_region` in `pipeline/classify.py`), the classification orchestrator
(`classify_collabs`), the partner normalizer (`normalize_partners`), the GPT
client's classify-with-cache-and-retry logic (`clients/gpt_client.py`), the
partner aggregation metrics (`pipeline/aggregate.py`), and the static
configuration tables (`config.py`).

Python strings are modelled as Lean `String`/`List Char`; Python floats
carrying the confidence scores are modelled as exact rationals (all literals
appearing in the code are short decimals and every comparison made by the code
has the same verdict on the rationals); the regular-expression search used for
partner extraction is modelled by an explicit backtracking matcher with
Python's semantics (leftmost match, greedy `*`/`?`, lazy `+?`, ordered
alternation, ASCII case-insensitivity).
-/

/-- Python whitespace class (the characters of `\s` relevant to `str.strip`
and the regex patterns: space, tab, newline, carriage return, vertical tab,
form feed). -/
def isPyWS (c : Char) : Bool :=
  c == ' ' || c == '\t' || c == '\n' || c == '\r' || c == '\x0b' || c == '\x0c'

/-- The apostrophe character, used in the partner-capture character class. -/
def apos : Char := Char.ofNat 39

/-- The character class `[A-Za-z0-9\s\-\']` of the partner-capture group. -/
def isCapChar (c : Char) : Bool :=
  c.isAlpha || c.isDigit || isPyWS c || c == '-' || c == apos

/-- ASCII case-insensitive character comparison (re.IGNORECASE literals). -/
def lowEq (a b : Char) : Bool := a.toLower == b.toLower

/-- Prefix test: `isPrefixB n h` holds when `n` starts `h` (exact characters). -/
def isPrefixB : List Char → List Char → Bool
  | [], _ => true
  | _ :: _, [] => false
  | a :: as, b :: bs => a == b && isPrefixB as bs

/-- Python's `needle in hay` substring test on exact characters
(the empty needle is contained in everything). -/
def containsSub (needle : List Char) : List Char → Bool
  | [] => needle.isEmpty
  | c :: rest => isPrefixB needle (c :: rest) || containsSub needle rest

/-- Substring test on strings, `strIn needle hay` = Python `needle in hay`. -/
def strIn (needle hay : String) : Bool := containsSub needle.data hay.data

/-- Python `str.strip()`: drop whitespace from both ends. -/
def pyStrip (s : String) : String :=
  String.mk (((s.data.dropWhile isPyWS).reverse.dropWhile isPyWS).reverse)

/-- Python `str.lower()` on the text handled by this pipeline: character-wise
ASCII lowercasing. -/
def pyLower (s : String) : String := String.mk (s.data.map Char.toLower)

/-! ## Backtracking regex matcher

A `Matcher` sends the remaining input to the list of possible remainders, in
the priority order in which Python's backtracking engine would produce them.
Every pattern used by `_rule_based_classify` has the shape
`pre ( [A-Za-z0-9\s\-\']+? ) post` with a single lazy capture group, so a
pattern is represented by a prefix matcher, the capture character class, and a
suffix matcher; only the existence of a suffix match matters for the capture.
-/

/-- A backtracking matcher: input remainder to candidate remainders in
backtracking priority order. -/
def Matcher := List Char → List (List Char)

/-- Case-insensitive literal. -/
def litM : List Char → List Char → List (List Char)
  | [], cs => [cs]
  | _ :: _, [] => []
  | p :: ps, c :: cs => if lowEq p c then litM ps cs else []

/-- Literal from a string. -/
def litS (s : String) : Matcher := litM s.data

/-- Single character from a class. -/
def clsM (p : Char → Bool) : Matcher := fun cs =>
  match cs with
  | c :: rest => if p c then [rest] else []
  | [] => []

/-- Sequencing: all remainders of `a`, each continued through `b`, in order. -/
def seqM (a b : Matcher) : Matcher := fun cs => (a cs).flatMap b

/-- Ordered alternation (left alternative first). -/
def altM (a b : Matcher) : Matcher := fun cs => a cs ++ b cs

/-- Greedy option `(?:...)?`: present first, then absent. -/
def optM (a : Matcher) : Matcher := fun cs => a cs ++ [cs]

/-- Empty pattern. -/
def epsM : Matcher := fun cs => [cs]

/-- End of input (`$`). -/
def eosM : Matcher := fun cs => if cs.isEmpty then [[]] else []

/-- Greedy star over a character class (`\s*`): longest first. -/
def starCls (p : Char → Bool) : Matcher := fun cs =>
  let run := (cs.takeWhile p).length
  (List.range (run + 1)).map (fun k => cs.drop (run - k))

/-- Greedy plus over a character class (`\s+`). -/
def plusCls (p : Char → Bool) : Matcher := seqM (clsM p) (starCls p)

/-- Lazy capture `(cls+?)` followed by `post`, starting from the current
position: try capture lengths 1, 2, ... (all captured characters in `cls`),
returning the first capture whose remainder admits a `post` match. -/
def capGo (cls : Char → Bool) (post : Matcher) (acc : List Char) :
    List Char → Option (List Char)
  | [] => none
  | c :: rest =>
    if cls c then
      let acc2 := acc ++ [c]
      if (post rest).isEmpty then capGo cls post acc2 rest else some acc2
    else none

/-- Match `pre (cls+?) post` anchored at the current position, returning the
capture of group 1; prefix remainders are tried in backtracking order. -/
def matchPatAt (pre : Matcher) (cls : Char → Bool) (post : Matcher)
    (cs : List Char) : Option (List Char) :=
  (pre cs).findSome? (capGo cls post [])

/-- Search as `re.search` does: try every start position left to right. -/
def searchPat (pre : Matcher) (cls : Char → Bool) (post : Matcher) :
    List Char → Option (List Char)
  | [] => matchPatAt pre cls post []
  | c :: rest =>
    match matchPatAt pre cls post (c :: rest) with
    | some g => some g
    | none => searchPat pre cls post rest

/-! ## Static configuration (`config.py`) -/

/-- The `PipelineConfig.collab_keywords` list. -/
def collabKeywords : List String :=
  ["collab", "collaboration", "x ", " x ", "×", "콜라보", "コラボ",
   "with ", "featuring", "feat.", "ft.", "crossover", "partnership",
   "limited", "exclusive", "special"]

/-- The `PipelineConfig.partner_aliases` table, in insertion (iteration) order. -/
def partnerAliases : List (String × String) :=
  [("black pink", "BLACKPINK"),
   ("blackpink", "BLACKPINK"),
   ("블랙핑크", "BLACKPINK"),
   ("newjeans", "NewJeans"),
   ("new jeans", "NewJeans"),
   ("뉴진스", "NewJeans"),
   ("lamborghini", "Lamborghini"),
   ("mclaren", "McLaren"),
   ("bugatti", "Bugatti"),
   ("koenigsegg", "Koenigsegg"),
   ("jujutsu kaisen", "Jujutsu Kaisen"),
   ("주술회전", "Jujutsu Kaisen"),
   ("dragon ball", "Dragon Ball"),
   ("dragonball", "Dragon Ball"),
   ("드래곤볼", "Dragon Ball"),
   ("neon genesis evangelion", "Evangelion"),
   ("evangelion", "Evangelion"),
   ("에반게리온", "Evangelion"),
   ("attack on titan", "Attack on Titan"),
   ("진격의 거인", "Attack on Titan"),
   ("arcane", "Arcane"),
   ("아케인", "Arcane"),
   ("the boys", "The Boys"),
   ("godzilla", "Godzilla"),
   ("고질라", "Godzilla"),
   ("kong", "Kong"),
   ("walking dead", "The Walking Dead"),
   ("워킹데드", "The Walking Dead"),
   ("resident evil", "Resident Evil"),
   ("레지던트 이블", "Resident Evil"),
   ("metro", "Metro Exodus"),
   ("alan walker", "Alan Walker"),
   ("앨런 워커", "Alan Walker")]

/-- Partner keyword groups of `_guess_category`. -/
def animePartners : List String :=
  ["dragon ball", "jujutsu kaisen", "evangelion", "attack on titan",
   "naruto", "one piece", "demon slayer", "spy x family"]

/-- Game partner keywords of `_guess_category`. -/
def gamePartners : List String :=
  ["resident evil", "metro", "assassin", "tomb raider", "league of legends",
   "valorant", "fortnite", "call of duty", "apex"]

/-- Movie partner keywords of `_guess_category`. -/
def moviePartners : List String :=
  ["godzilla", "kong", "arcane", "the boys", "walking dead",
   "dune", "matrix", "john wick", "transformers"]

/-- Artist partner keywords of `_guess_category`. -/
def artistPartners : List String :=
  ["blackpink", "newjeans", "bts", "alan walker", "marshmello",
   "dj", "band", "singer"]

/-- Brand partner keywords of `_guess_category`. -/
def brandPartners : List String :=
  ["lamborghini", "mclaren", "bugatti", "koenigsegg", "aston martin",
   "ferrari", "porsche", "bmw", "mercedes", "audi",
   "nike", "adidas", "puma", "supreme"]

/-- Region keyword table of `_guess_region`, in iteration order. -/
def regionKeywords : List (String × List String) :=
  [("KR", ["korea", "korean", "한국", "한글", "kr server"]),
   ("JP", ["japan", "japanese", "日本", "日本語", "jp server"]),
   ("NA", ["north america", "usa", "us server", "na server"]),
   ("EU", ["europe", "european", "eu server"]),
   ("SEA", ["southeast asia", "sea server", "indonesia", "thailand",
            "vietnam", "philippines"]),
   ("LATAM", ["latin america", "latam", "brazil", "mexico", "spanish"]),
   ("MENA", ["middle east", "mena", "arabic", "arab"])]

/-! ## Rule engine (`pipeline/classify.py`) -/

/-- The structured classification result (`CollabClassification` pydantic
model in `clients/gpt_client.py`); optional fields default to `none` and
`confidence` to 0, as in the pydantic model. -/
structure CollabClassification where
  is_collab : Bool
  partner_name : Option String := none
  category : Option String := none
  region : Option String := none
  one_line_summary : Option String := none
  confidence : ℚ := 0
deriving DecidableEq, Repr

/-- The class `[x×]` under IGNORECASE. -/
def isXChar (c : Char) : Bool := c.toLower == 'x' || c == '×'

/-- The class `[-–|:]`. -/
def isDashChar (c : Char) : Bool := c == '-' || c == '–' || c == '|' || c == ':'

/-- Pattern 1 prefix: `(?:pubg\s*mobile\s*)?[x×]\s*`. -/
def pat1pre : Matcher :=
  seqM
    (optM (seqM (litS "pubg")
      (seqM (starCls isPyWS) (seqM (litS "mobile") (starCls isPyWS)))))
    (seqM (clsM isXChar) (starCls isPyWS))

/-- Pattern 1 suffix: `(?:\s*[-–|:]|\s*collab|\s*event|\s*update|$)`. -/
def pat1post : Matcher :=
  altM (seqM (starCls isPyWS) (clsM isDashChar))
    (altM (seqM (starCls isPyWS) (litS "collab"))
      (altM (seqM (starCls isPyWS) (litS "event"))
        (altM (seqM (starCls isPyWS) (litS "update")) eosM)))

/-- Pattern 2 prefix: `(?:with|featuring|feat\.?|ft\.?)\s+`. -/
def pat2pre : Matcher :=
  seqM
    (altM (litS "with")
      (altM (litS "featuring")
        (altM (seqM (litS "feat") (optM (clsM (· == '.'))))
          (seqM (litS "ft") (optM (clsM (· == '.')))))))
    (plusCls isPyWS)

/-- Pattern 2 suffix: `(?:\s*[-–|:]|\s*!|$)`. -/
def pat2post : Matcher :=
  altM (seqM (starCls isPyWS) (clsM isDashChar))
    (altM (seqM (starCls isPyWS) (clsM (· == '!'))) eosM)

/-- Pattern 3 prefix: `\[`. -/
def pat3pre : Matcher := clsM (· == '[')

/-- Pattern 3 suffix: `\]\s*(?:collab|event|crossover)`. -/
def pat3post : Matcher :=
  seqM (clsM (· == ']'))
    (seqM (starCls isPyWS)
      (altM (litS "collab") (altM (litS "event") (litS "crossover"))))

/-- Pattern 4 prefix: empty. -/
def pat4pre : Matcher := epsM

/-- Pattern 4 suffix: `\s*(?:콜라보|コラボ)`. -/
def pat4post : Matcher :=
  seqM (starCls isPyWS) (altM (litS "콜라보") (litS "コラボ"))

/-- The four partner patterns of `_rule_based_classify`, in priority order. -/
def partnerPatterns : List (Matcher × (Char → Bool) × Matcher) :=
  [(pat1pre, isCapChar, pat1post),
   (pat2pre, isCapChar, pat2post),
   (pat3pre, isCapChar, pat3post),
   (pat4pre, isCapChar, pat4post)]

/-- Candidate stopwords filtered out after extraction. -/
def stopwords : List String := ["pubg", "mobile", "pubg mobile", "the", "a", "an"]

/-- The pattern loop of `_rule_based_classify`: search each pattern against
the title in order; on a match whose stripped candidate is not a stopword,
return the candidate and stop; a stopword match falls through to the next
pattern. -/
def tryPatterns : List (Matcher × (Char → Bool) × Matcher) → List Char → Option String
  | [], _ => none
  | (pre, cls, post) :: rest, cs =>
    match searchPat pre cls post cs with
    | some g =>
      let cand := pyStrip (String.mk g)
      if pyLower cand ∈ stopwords then tryPatterns rest cs else some cand
    | none => tryPatterns rest cs

/-- Partner-candidate extraction: the patterns are matched against the title
only (`re.search(pattern, title, re.IGNORECASE)` in the source). -/
def extractCandidate (title : String) : Option String :=
  tryPatterns partnerPatterns title.data

/-- Alias resolution: first alias related to `p.lower().strip()` by
bidirectional substring containment, if any (shared by the rule engine and
the partner normalizer). -/
def resolvePartnerAlias (aliases : List (String × String)) (p : String) :
    Option String :=
  let normalized := pyStrip (pyLower p)
  (aliases.find? (fun ac => strIn ac.1 normalized || strIn normalized ac.1)).map
    (fun ac => ac.2)

/-- The rule engine's in-place alias normalization of an extracted candidate
(keeps the candidate when no alias matches). -/
def ruleNormalizePartner (p : String) : String :=
  (resolvePartnerAlias partnerAliases p).getD p

/-- Embeds `_guess_category(partner_name, text)`. -/
def guessCategory (partner : String) (text : String) : String :=
  let pl := pyLower partner
  if animePartners.any (fun a => strIn a pl) then "Anime"
  else if gamePartners.any (fun a => strIn a pl) then "Game"
  else if moviePartners.any (fun a => strIn a pl) then "Movie"
  else if artistPartners.any (fun a => strIn a pl) then "Artist"
  else if brandPartners.any (fun a => strIn a pl) then "Brand"
  else if ["anime", "manga", "アニメ", "漫画"].any (fun k => strIn k text) then "Anime"
  else if ["movie", "film", "series", "tv show", "영화", "드라마"].any
      (fun k => strIn k text) then "Movie"
  else if ["artist", "singer", "band", "music", "concert"].any
      (fun k => strIn k text) then "Artist"
  else "IP"

/-- Embeds `_guess_region(text)`. -/
def guessRegion (text : String) : String :=
  let tl := pyLower text
  match regionKeywords.find? (fun rk => rk.2.any (fun k => strIn k tl)) with
  | some rk => rk.1
  | none => "Global"

/-- The trigger-keyword test of `_rule_based_classify` over the case-folded
`title + " " + description` text. -/
def hasCollabKeyword (text : String) : Bool :=
  collabKeywords.any (fun kw => strIn (pyLower kw) text)

/-- The low-confidence result returned when a trigger keyword is present but
no partner could be extracted. -/
def lowConfResult : CollabClassification :=
  { is_collab := true
    partner_name := none
    category := some "Other"
    region := some "Unknown"
    one_line_summary := some "Potential collaboration (partner unidentified)"
    confidence := 4/10 }

/-- Embeds `_rule_based_classify(title, description, config)`. An extracted candidate
that strips to the empty string is falsy in Python, so it behaves exactly like
a failed extraction (the low-confidence branch). -/
def ruleBasedClassify (title description : String) : Option CollabClassification :=
  let text := pyLower (title ++ " " ++ description)
  if hasCollabKeyword text then
    match extractCandidate title with
    | some cand =>
      if cand = "" then some lowConfResult
      else
        let partner := ruleNormalizePartner cand
        some { is_collab := true
               partner_name := some partner
               category := some (guessCategory partner text)
               region := some (guessRegion text)
               one_line_summary := some ("Collaboration with " ++ partner)
               confidence := 85/100 }
    | none => some lowConfResult
  else none

/-! ## Video records and the classification orchestrator -/

/-- The `Video` model (`db/models.py`), restricted to the identity, text,
engagement, and classification fields the classification core reads and
writes; defaults mirror the pydantic model (`classification_method` is null
for a never-classified video). -/
structure Video where
  video_id : String
  title : String := ""
  description : Option String := none
  view_count : ℕ := 0
  like_count : ℕ := 0
  comment_count : ℕ := 0
  is_collab : Bool := false
  collab_partner : Option String := none
  collab_category : Option String := none
  collab_region : Option String := none
  collab_summary : Option String := none
  collab_confidence : ℚ := 0
  classification_method : Option String := none
deriving DecidableEq, Repr

/-- Write a full classification result into a video: all seven fields of the
classification block are overwritten (the confident-rule and GPT-success
paths of `classify_collabs`). -/
def applyResult (v : Video) (r : CollabClassification) (method : String) : Video :=
  { v with
    is_collab := r.is_collab
    collab_partner := r.partner_name
    collab_category := r.category
    collab_region := r.region
    collab_summary := r.one_line_summary
    collab_confidence := r.confidence
    classification_method := some method }

/-- The no-collab-indicators write-back of `classify_collabs`: only
`is_collab`, `collab_confidence` and `classification_method` are assigned. -/
def rejectVideo (v : Video) : Video :=
  { v with
    is_collab := false
    collab_confidence := 9/10
    classification_method := some "rule" }

/-- The GPT-exception fallback write-back of `classify_collabs`: only
`is_collab`, `collab_confidence` and `classification_method` are assigned. -/
def gptFailureFallback (v : Video) : Video :=
  { v with
    is_collab := true
    collab_confidence := 3/10
    classification_method := some "rule_fallback" }

/-- The GPT-unavailable write-back of `classify_collabs` for queued videos:
only `is_collab`, `collab_confidence` and `classification_method` are
assigned. -/
def lowConfFallback (v : Video) : Video :=
  { v with
    is_collab := true
    collab_confidence := 3/10
    classification_method := some "rule_low_conf" }

/-! ## GPT client (`clients/gpt_client.py`) -/

/-- Outcome of one network round trip of `GPTClient.classify_collab`:
a response whose JSON parses into a `CollabClassification`, a response whose
content fails to parse (`json.JSONDecodeError`/`ValueError`), or a raised
network/API exception. -/
inductive GPTResponse
  | valid (r : CollabClassification)
  | malformed
  | netError
deriving DecidableEq, Repr

/-- State threaded through GPT calls within one run: the response cache
(`gpt_cache` table, keyed by the input text; entries hold the parsed
classification, since only parseable content is cached) and the number of
network invocations made so far. -/
structure GPTState where
  cache : List (String × CollabClassification) := []
  netCalls : ℕ := 0
deriving DecidableEq, Repr

/-- The cache key of `classify_collab`: `f"{title}\n{description_truncated}"`
with the description hard-truncated to 2000 characters. -/
def cacheKey (title description : String) : String :=
  title ++ "\n" ++ description.take 2000

/-- Cache lookup (`Database.get_gpt_cache`). -/
def lookupCache (st : GPTState) (key : String) : Option CollabClassification :=
  (st.cache.find? (fun e => e.1 == key)).map (fun e => e.2)

/-- The classification returned when the response content fails to parse:
`CollabClassification(is_collab=False, confidence=0.0)`. -/
def parseFailResult : CollabClassification := { is_collab := false, confidence := 0 }

/-- The attempt loop of `classify_collab` under tenacity's
`stop_after_attempt(3)`: the environment's successive network responses are
given by `respond` indexed by the global invocation counter. A parseable
response is returned and cached; an unparseable response is returned as
`parseFailResult` without caching and without retrying (the function returns
normally, so tenacity sees success); a raised exception is retried until the
attempt budget is exhausted, then surfaces to the caller (`none`). -/
def gptAttempts (respond : ℕ → GPTResponse) (key : String) :
    ℕ → GPTState → Option CollabClassification × GPTState
  | 0, st => (none, st)
  | n + 1, st =>
    let st2 : GPTState := { st with netCalls := st.netCalls + 1 }
    match respond st.netCalls with
    | .valid r => (some r, { st2 with cache := (key, r) :: st2.cache })
    | .malformed => (some parseFailResult, st2)
    | .netError => if n = 0 then (none, st2) else gptAttempts respond key n st2

/-- Embeds `GPTClient.classify_collab(title, description, use_cache=True, db=db)`:
check the cache first (a hit makes no network call), otherwise run the
attempt loop with a budget of 3 attempts. -/
def gptClassify (respond : ℕ → GPTResponse) (title description : String)
    (st : GPTState) : Option CollabClassification × GPTState :=
  let key := cacheKey title description
  match lookupCache st key with
  | some r => (some r, st)
  | none => gptAttempts respond key 3 st

/-! ## Classification orchestrator (`classify_collabs`) -/

/-- Decision taken for one video in the rule-based pass. -/
inductive RuleDecision
  | write (w : Video)
  | enqueue
deriving Repr

/-- The rule-based pass for one video: a result at or above the threshold is
written in full with method `"rule"`; a below-threshold collab-positive
result is enqueued for GPT; otherwise the video is marked non-collab. -/
def ruleStep (threshold : ℚ) (v : Video) : RuleDecision :=
  match ruleBasedClassify v.title (v.description.getD "") with
  | some r =>
    if threshold ≤ r.confidence then .write (applyResult v r "rule")
    else if r.is_collab then .enqueue
    else .write (rejectVideo v)
  | none => .write (rejectVideo v)

/-- Phase 1 of `classify_collabs`: run the rule-based pass over all videos,
collecting the written records and the GPT queue (each in input order). -/
def phase1 (threshold : ℚ) : List Video → List Video × List Video
  | [] => ([], [])
  | v :: rest =>
    let res := phase1 threshold rest
    match ruleStep threshold v with
    | .write w => (w :: res.1, res.2)
    | .enqueue => (res.1, v :: res.2)

/-- The GPT pass for one queued video: a returned classification is written
in full with method `"gpt"`; a raised exception (retry budget exhausted)
falls back to `gptFailureFallback`. -/
def gptStep (respond : ℕ → GPTResponse) (v : Video) (st : GPTState) :
    Video × GPTState :=
  match gptClassify respond v.title (v.description.getD "") st with
  | (some g, st2) => (applyResult v g "gpt", st2)
  | (none, st2) => (gptFailureFallback v, st2)

/-- Phase 2 of `classify_collabs` when GPT is available: process the queue in
order, threading the cache/invocation state. -/
def phase2 (respond : ℕ → GPTResponse) :
    List Video → GPTState → List Video × GPTState
  | [], st => ([], st)
  | v :: rest, st =>
    let ws := gptStep respond v st
    let rs := phase2 respond rest ws.2
    (ws.1 :: rs.1, rs.2)

/-- One full classification pass of `classify_collabs` over a batch:
the rule-based pass runs over every video first, then the queue is processed
by GPT when it is available (`use_gpt` and a constructed client), and is
otherwise written back via `lowConfFallback`. The first component lists every
record persisted by the pass. -/
def runClassify (useGpt : Bool) (respond : ℕ → GPTResponse) (threshold : ℚ)
    (videos : List Video) (st : GPTState) : List Video × GPTState :=
  let p := phase1 threshold videos
  if useGpt then
    let q := phase2 respond p.2 st
    (p.1 ++ q.1, q.2)
  else
    (p.1 ++ p.2.map lowConfFallback, st)

/-! ## Partner normalizer (`normalize_partners`) -/

/-- A video's partner name as tested by Python truthiness
(`if v.collab_partner`): `None` and the empty string are excluded. -/
def truthyPartner (v : Video) : Option String :=
  match v.collab_partner with
  | some p => if p = "" then none else some p
  | none => none

/-- The normalization map built by `normalize_partners`: for each distinct
truthy partner name among the collab videos, the first alias related to it by
bidirectional substring containment contributes an entry
partner ↦ canonical. -/
def normMapFor (aliases : List (String × String)) (videos : List Video) :
    List (String × String) :=
  ((videos.filterMap truthyPartner).dedup).filterMap
    (fun p => (resolvePartnerAlias aliases p).map (fun c => (p, c)))

/-- Apply the normalization map to one video: a video whose current partner
is a key of the map has its `collab_partner` replaced by the mapped canonical
name (and is re-upserted); nothing else on the record changes. -/
def applyNormMap (m : List (String × String)) (v : Video) : Video :=
  match v.collab_partner.bind (fun p => (m.find? (fun e => e.1 == p)).map (fun e => e.2)) with
  | some c => { v with collab_partner := some c }
  | none => v

/-- One pass of `normalize_partners` over the collab-video list: returns the
updated videos and the rename map built for the pass. -/
def normalizePartners (aliases : List (String × String)) (videos : List Video) :
    List Video × List (String × String) :=
  let m := normMapFor aliases videos
  (videos.map (applyNormMap m), m)

/-- The number of `db.upsert_video` updates made by a `normalize_partners`
pass: the videos whose partner is a key of the rename map. -/
def normUpdateCount (aliases : List (String × String)) (videos : List Video) : ℕ :=
  let m := normMapFor aliases videos
  (videos.filter (fun v =>
    (v.collab_partner.bind (fun p => m.find? (fun e => e.1 == p))).isSome)).length

/-! ## Aggregator (`pipeline/aggregate.py`, `_calculate_partner_metrics`) -/

/-- The numeric core of a `CollabAgg` row. -/
structure PartnerMetrics where
  video_count : ℕ
  total_views : ℕ
  total_video_likes : ℕ
  total_comments : ℕ
  avg_views : ℚ
  avg_video_likes : ℚ
  like_rate : ℚ
  comment_rate : ℚ
deriving DecidableEq, Repr

/-- `_calculate_partner_metrics`: counts, sums, and the derived rates, each
rate guarded to 0 when its denominator is 0. -/
def calcPartnerMetrics (videos : List Video) : PartnerMetrics :=
  let n := videos.length
  let tv := (videos.map (fun v => v.view_count)).sum
  let tl := (videos.map (fun v => v.like_count)).sum
  let tc := (videos.map (fun v => v.comment_count)).sum
  { video_count := n
    total_views := tv
    total_video_likes := tl
    total_comments := tc
    avg_views := if 0 < n then (tv : ℚ) / n else 0
    avg_video_likes := if 0 < n then (tl : ℚ) / n else 0
    like_rate := if 0 < tv then (tl : ℚ) / tv else 0
    comment_rate := if 0 < tv then (tc : ℚ) / tv else 0 }

/-! ## General lemmas about the rule engine and the orchestrator -/

/-- Every result the rule engine returns is collab-positive with positive
confidence: it is either the confident 0.85 record or the ambiguous 0.4
record. -/
theorem ruleBasedClassify_pos {t d : String} {r : CollabClassification}
    (h : ruleBasedClassify t d = some r) :
    r.is_collab = true ∧ 0 < r.confidence := by
  simp only [ruleBasedClassify] at h
  split at h
  · split at h
    · split at h
      · injection h with h
        subst h
        exact ⟨rfl, by norm_num [lowConfResult]⟩
      · injection h with h
        subst h
        exact ⟨rfl, by norm_num⟩
    · injection h with h
      subst h
      exact ⟨rfl, by norm_num [lowConfResult]⟩
  · exact absurd h (by simp)

/-- Every record written by phase 1 comes from an input video via its rule
decision. -/
theorem phase1_mem_written {threshold : ℚ} {vs : List Video} {w : Video}
    (h : w ∈ (phase1 threshold vs).1) :
    ∃ v ∈ vs, ruleStep threshold v = .write w := by
  induction vs with
  | nil => simp [phase1] at h
  | cons v rest ih =>
    simp only [phase1] at h
    cases hs : ruleStep threshold v with
    | write w2 =>
      rw [hs] at h
      simp only [List.mem_cons] at h
      cases h with
      | inl h => exact ⟨v, by simp, by rw [hs, h]⟩
      | inr h =>
        obtain ⟨u, hu, hw⟩ := ih h
        exact ⟨u, by simp [hu], hw⟩
    | enqueue =>
      rw [hs] at h
      obtain ⟨u, hu, hw⟩ := ih h
      exact ⟨u, by simp [hu], hw⟩

/-- Every video queued by phase 1 is an input video whose rule decision was
to escalate. -/
theorem phase1_mem_queue {threshold : ℚ} {vs : List Video} {q : Video}
    (h : q ∈ (phase1 threshold vs).2) :
    q ∈ vs ∧ ruleStep threshold q = .enqueue := by
  induction vs with
  | nil => simp [phase1] at h
  | cons v rest ih =>
    simp only [phase1] at h
    cases hs : ruleStep threshold v with
    | write w2 =>
      rw [hs] at h
      obtain ⟨hu, hw⟩ := ih h
      exact ⟨by simp [hu], hw⟩
    | enqueue =>
      rw [hs] at h
      simp only [List.mem_cons] at h
      cases h with
      | inl h => subst h; exact ⟨by simp, hs⟩
      | inr h =>
        obtain ⟨hu, hw⟩ := ih h
        exact ⟨by simp [hu], hw⟩

/-- Characterization of a phase-1 write: it is either a full overwrite with a
rule result at or above the threshold, or the three-field non-collab
write-back. -/
theorem ruleStep_write_cases {threshold : ℚ} {v w : Video}
    (h : ruleStep threshold v = .write w) :
    (∃ r, ruleBasedClassify v.title (v.description.getD "") = some r ∧
      threshold ≤ r.confidence ∧ w = applyResult v r "rule") ∨
    w = rejectVideo v := by
  unfold ruleStep at h
  split at h
  · rename_i r hr
    split at h
    · rename_i hc
      injection h with h
      exact Or.inl ⟨r, hr, hc, h.symm⟩
    · split at h
      · exact absurd h (by simp)
      · injection h with h
        exact Or.inr h.symm
  · rename_i hr
    injection h with h
    exact Or.inr h.symm

/-- Every record written by phase 2 comes from a queued video, either as a
full overwrite of a returned GPT classification or as the three-field
exception fallback. -/
theorem phase2_mem_written {respond : ℕ → GPTResponse} {qs : List Video}
    {st : GPTState} {w : Video} (h : w ∈ (phase2 respond qs st).1) :
    ∃ v ∈ qs, (∃ g, w = applyResult v g "gpt") ∨ w = gptFailureFallback v := by
  induction qs generalizing st with
  | nil => simp [phase2] at h
  | cons v rest ih =>
    simp only [phase2, List.mem_cons] at h
    cases h with
    | inl h =>
      refine ⟨v, by simp, ?_⟩
      unfold gptStep at h
      split at h
      · exact Or.inl ⟨_, by rw [h]⟩
      · exact Or.inr (by rw [h])
    | inr h =>
      obtain ⟨u, hu, hw⟩ := ih h
      exact ⟨u, by simp [hu], hw⟩

/-- The collab-positivity hypothesis on a classification record. -/
def PosConf (r : CollabClassification) : Prop :=
  r.is_collab = true → 0 < r.confidence

/-- All network responses of the environment are collab-positivity sound. -/
def RespOK (respond : ℕ → GPTResponse) : Prop :=
  ∀ n r, respond n = .valid r → PosConf r

/-- All cached classifications are collab-positivity sound. -/
def CacheOK (st : GPTState) : Prop :=
  ∀ e ∈ st.cache, PosConf e.2

/-- The attempt loop only returns sound classifications and preserves cache
soundness, when the environment is sound. -/
theorem gptAttempts_sound {respond : ℕ → GPTResponse} {key : String}
    (hresp : RespOK respond) :
    ∀ n st res st2, gptAttempts respond key n st = (res, st2) → CacheOK st →
      CacheOK st2 ∧ ∀ g, res = some g → PosConf g := by
  intro n
  induction n with
  | zero =>
    intro st res st2 h hc
    simp only [gptAttempts] at h
    injection h with h1 h2
    subst h1 h2
    exact ⟨hc, by intro g hg; cases hg⟩
  | succ n ih =>
    intro st res st2 h hc
    simp only [gptAttempts] at h
    split at h
    · rename_i r hr
      injection h with h1 h2
      subst h1 h2
      refine ⟨?_, ?_⟩
      · intro e he
        simp only [List.mem_cons] at he
        cases he with
        | inl he => subst he; exact hresp _ _ hr
        | inr he => exact hc _ he
      · intro g hg
        injection hg with hg
        subst hg
        exact hresp _ _ hr
    · injection h with h1 h2
      subst h1 h2
      refine ⟨hc, ?_⟩
      intro g hg
      injection hg with hg
      subst hg
      intro hb
      cases hb
    · split at h
      · injection h with h1 h2
        subst h1 h2
        exact ⟨hc, by intro g hg; cases hg⟩
      · exact ih _ _ _ h hc

/-- `classify_collab` only returns sound classifications and preserves cache
soundness, when the environment and the initial cache are sound. -/
theorem gptClassify_sound {respond : ℕ → GPTResponse} {title desc : String}
    {st st2 : GPTState} {res : Option CollabClassification}
    (hresp : RespOK respond) (hcache : CacheOK st)
    (h : gptClassify respond title desc st = (res, st2)) :
    CacheOK st2 ∧ ∀ g, res = some g → PosConf g := by
  simp only [gptClassify] at h
  split at h
  · rename_i r hr
    injection h with h1 h2
    subst h1 h2
    refine ⟨hcache, ?_⟩
    intro g hg
    injection hg with hg
    subst hg
    unfold lookupCache at hr
    cases hfind : st.cache.find? (fun e => e.1 == cacheKey title desc) with
    | some e =>
      rw [hfind] at hr
      injection hr with hr
      subst hr
      exact hcache _ (List.mem_of_find?_eq_some hfind)
    | none => rw [hfind] at hr; cases hr
  · exact gptAttempts_sound hresp 3 st res st2 h hcache

/-! ## C7: BLACKPINK end-to-end scenario -/

/-- The scenario-1 input video: the BLACKPINK concert title with an empty
description. -/
def videoC7 : Video :=
  { video_id := "c7", title := "PUBG MOBILE x BLACKPINK Concert Event", description := some "" }

/-- The rule result produced for the scenario-1 title. -/
def ruleC7 : CollabClassification :=
  { is_collab := true
    partner_name := some "BLACKPINK"
    category := some "Artist"
    region := some "Global"
    one_line_summary := some "Collaboration with BLACKPINK"
    confidence := 85/100 }

/-- C7: on the title "PUBG MOBILE x BLACKPINK Concert Event" with empty
description and the shipped configuration, the rule engine returns a collab
with partner "BLACKPINK" (resolved through the alias table), category
"Artist" and confidence 0.85, and the orchestrator persists exactly that
result with `classification_method = "rule"`. -/
theorem C7_blackpink_scenario :
    ruleBasedClassify "PUBG MOBILE x BLACKPINK Concert Event" "" = some ruleC7 ∧
    (runClassify true (fun _ => .netError) (1/2) [videoC7] {}).1 =
      [applyResult videoC7 ruleC7 "rule"] ∧
    (applyResult videoC7 ruleC7 "rule").is_collab = true ∧
    (applyResult videoC7 ruleC7 "rule").collab_partner = some "BLACKPINK" ∧
    (applyResult videoC7 ruleC7 "rule").collab_category = some "Artist" ∧
    (applyResult videoC7 ruleC7 "rule").collab_confidence = 85/100 ∧
    (applyResult videoC7 ruleC7 "rule").classification_method = some "rule" := by
  have h : ruleBasedClassify videoC7.title (videoC7.description.getD "") = some ruleC7 := by
    rfl
  have hs : ruleStep (1/2) videoC7 = .write (applyResult videoC7 ruleC7 "rule") := by
    unfold ruleStep
    rw [h]
    norm_num [ruleC7]
  refine ⟨by rfl, ?_, rfl, rfl, rfl, rfl, rfl⟩
  simp only [runClassify, phase1, hs, phase2]
  simp

/-! ## C8: absence of trigger keywords is a confident negative -/

/-- A keyword-free video is rejected by the rule pass of a single-video
batch, whatever the GPT availability, threshold and state. -/
theorem runClassify_no_keyword (v : Video) (useGpt : Bool)
    (respond : ℕ → GPTResponse) (threshold : ℚ) (st : GPTState)
    (h : hasCollabKeyword (pyLower (v.title ++ " " ++ v.description.getD "")) = false) :
    ruleBasedClassify v.title (v.description.getD "") = none ∧
    runClassify useGpt respond threshold [v] st = ([rejectVideo v], st) := by
  have hr : ruleBasedClassify v.title (v.description.getD "") = none := by
    simp only [ruleBasedClassify, h]
    simp
  have hs : ruleStep threshold v = .write (rejectVideo v) := by
    unfold ruleStep
    rw [hr]
  refine ⟨hr, ?_⟩
  cases useGpt <;> simp [runClassify, phase1, hs, phase2]

/-- C8: for any video whose case-folded `title + " " + description` contains
no configured trigger keyword, the rule engine returns `none` and the
orchestrator persists the video as a non-collab with confidence 0.9 and
`classification_method = "rule"` (regardless of GPT availability, threshold,
or GPT state). -/
theorem C8_no_keyword_reject (v : Video) (useGpt : Bool)
    (respond : ℕ → GPTResponse) (threshold : ℚ) (st : GPTState)
    (h : hasCollabKeyword (pyLower (v.title ++ " " ++ v.description.getD "")) = false) :
    ruleBasedClassify v.title (v.description.getD "") = none ∧
    runClassify useGpt respond threshold [v] st = ([rejectVideo v], st) ∧
    (rejectVideo v).is_collab = false ∧
    (rejectVideo v).collab_confidence = 9/10 ∧
    (rejectVideo v).classification_method = some "rule" := by
  obtain ⟨hr, hrun⟩ := runClassify_no_keyword v useGpt respond threshold st h
  exact ⟨hr, hrun, rfl, rfl, rfl⟩

/-- Witness for C8: the scenario-2 video (patch-notes title, weapons
description) has no trigger keyword and is rejected. -/
theorem C8_no_keyword_reject_witness :
    runClassify false (fun _ => GPTResponse.netError) (1/2)
      [{ video_id := "c8", title := "New Update Patch Notes 2.9",
         description := some "check out new weapons" }] {} =
      ([rejectVideo { video_id := "c8", title := "New Update Patch Notes 2.9",
                      description := some "check out new weapons" }], {}) :=
  (C8_no_keyword_reject
    { video_id := "c8", title := "New Update Patch Notes 2.9",
      description := some "check out new weapons" }
    false (fun _ => GPTResponse.netError) (1/2) {} (by decide)).2.1

/-! ## C9: partner aggregation metrics -/

/-- Three videos of one partner with views 100/200/300 and likes 10/20/30. -/
def aggVideos : List Video :=
  [{ video_id := "a1", view_count := 100, like_count := 10 },
   { video_id := "a2", view_count := 200, like_count := 20 },
   { video_id := "a3", view_count := 300, like_count := 30 }]

/-- C9: the aggregator computes `video_count = 3`, `total_views = 600`,
`avg_views = 200` and `like_rate = 60/600 = 0.1` on the three-video partner,
and each rate is 0 whenever its denominator is 0. -/
theorem C9_partner_metrics :
    (calcPartnerMetrics aggVideos).video_count = 3 ∧
    (calcPartnerMetrics aggVideos).total_views = 600 ∧
    (calcPartnerMetrics aggVideos).avg_views = 200 ∧
    (calcPartnerMetrics aggVideos).like_rate = 1/10 ∧
    (∀ vs : List Video, (calcPartnerMetrics vs).video_count = 0 →
      (calcPartnerMetrics vs).avg_views = 0) ∧
    (∀ vs : List Video, (calcPartnerMetrics vs).total_views = 0 →
      (calcPartnerMetrics vs).like_rate = 0) := by
  refine ⟨rfl, rfl, ?_, ?_, ?_, ?_⟩
  · show ((600 : ℚ) / 3 = 200)
    norm_num
  · show ((60 : ℚ) / 600 = 1/10)
    norm_num
  · intro vs h
    simp only [calcPartnerMetrics] at h ⊢
    rw [if_neg (by omega)]
  · intro vs h
    simp only [calcPartnerMetrics] at h ⊢
    rw [if_neg (by omega)]

/-- Witness for C9's zero-denominator clauses at the empty video list. -/
theorem C9_partner_metrics_witness :
    (calcPartnerMetrics []).avg_views = 0 ∧ (calcPartnerMetrics []).like_rate = 0 :=
  ⟨C9_partner_metrics.2.2.2.2.1 [] rfl, C9_partner_metrics.2.2.2.2.2 [] rfl⟩

/-! ## C10: partner extraction reads the title only -/

/-- C10: the partner patterns are matched against the title alone, so when
the title yields no pattern match the returned partner is null even if the
description contains an extractable partner; the description still
participates in trigger-keyword detection (first clause: the result is the
partner-less low-confidence record exactly when the combined text has a
trigger keyword) and in category and region guessing (last four clauses:
changing only the description changes the guessed region or category). -/
theorem C10_title_only_extraction :
    (∀ title desc, extractCandidate title = none →
      ruleBasedClassify title desc =
        (if hasCollabKeyword (pyLower (title ++ " " ++ desc)) then some lowConfResult
         else none)) ∧
    extractCandidate "PUBG MOBILE x BLACKPINK event" = some "BLACKPINK" ∧
    extractCandidate "Something Special Coming Soon!!" = none ∧
    ruleBasedClassify "Something Special Coming Soon!!" "PUBG MOBILE x BLACKPINK event" =
      some lowConfResult ∧
    lowConfResult.partner_name = none ∧
    (ruleBasedClassify "PUBG MOBILE x Godzilla" "japan").map (fun r => r.region) =
      some (some "JP") ∧
    (ruleBasedClassify "PUBG MOBILE x Godzilla" "").map (fun r => r.region) =
      some (some "Global") ∧
    (ruleBasedClassify "PUBG MOBILE x Zorro" "anime").map (fun r => r.category) =
      some (some "Anime") ∧
    (ruleBasedClassify "PUBG MOBILE x Zorro" "").map (fun r => r.category) =
      some (some "IP") := by
  refine ⟨?_, by rfl, by rfl, by rfl, rfl, by rfl, by rfl, by rfl, by rfl⟩
  intro title desc hx
  simp only [ruleBasedClassify, hx]

/-- Witness for C10: a title with a trigger keyword but no title pattern
match is classified as the partner-less low-confidence record. -/
theorem C10_title_only_extraction_witness :
    ruleBasedClassify "Something Special Coming Soon!!" "" = some lowConfResult := by
  rw [C10_title_only_extraction.1 "Something Special Coming Soon!!" ""
    C10_title_only_extraction.2.2.1]
  rfl

/-! ## C1: the no-AI path for escalated videos -/

/-- An escalated video (trigger keyword, no extractable partner) carrying a
stale summary from an earlier classification. -/
def videoC1 : Video :=
  { video_id := "c1", title := "Something Special Coming Soon!!",
    collab_summary := some "stale summary" }

/-- C1 counterexample: with the AI classifier unavailable, the escalated
video is persisted with confidence 0.3 — not the rule result's 0.4 — and its
partner/category/region/summary fields are not set from the rule result (the
stale summary survives; the rule result's summary does not appear). -/
theorem C1_counterexample :
    (runClassify false (fun _ => GPTResponse.netError) (1/2) [videoC1] {}).1 =
      [lowConfFallback videoC1] ∧
    ruleBasedClassify videoC1.title (videoC1.description.getD "") = some lowConfResult ∧
    lowConfResult.confidence = 4/10 ∧
    (lowConfFallback videoC1).collab_confidence = 3/10 ∧
    ¬(lowConfFallback videoC1).collab_confidence = 4/10 ∧
    (lowConfFallback videoC1).collab_summary = some "stale summary" ∧
    ¬(lowConfFallback videoC1).collab_summary = lowConfResult.one_line_summary ∧
    (lowConfFallback videoC1).classification_method = some "rule_low_conf" := by
  have h : ruleBasedClassify videoC1.title (videoC1.description.getD "") =
      some lowConfResult := by rfl
  have hs : ruleStep (1/2) videoC1 = .enqueue := by
    unfold ruleStep
    rw [h]
    norm_num [lowConfResult]
  refine ⟨?_, h, rfl, rfl, by norm_num [lowConfFallback, videoC1],
    rfl, by decide, rfl⟩
  simp only [runClassify, phase1, hs]
  simp

/-- C1 amended: when the AI classifier is unavailable, an escalated video
(rule result below the threshold and collab-positive) is persisted with
`is_collab = true`, confidence 0.3 and method `"rule_low_conf"`, while its
partner, category, region and summary fields keep their previous values. -/
theorem C1_low_conf_path (v : Video) (respond : ℕ → GPTResponse)
    (threshold : ℚ) (st : GPTState) (r : CollabClassification)
    (h : ruleBasedClassify v.title (v.description.getD "") = some r)
    (hconf : r.confidence < threshold) (hcol : r.is_collab = true) :
    runClassify false respond threshold [v] st = ([lowConfFallback v], st) ∧
    lowConfFallback v =
      { v with is_collab := true, collab_confidence := 3/10,
               classification_method := some "rule_low_conf" } := by
  have hs : ruleStep threshold v = .enqueue := by
    unfold ruleStep
    rw [h]
    simp only [if_neg (not_le.mpr hconf), if_pos hcol]
  refine ⟨?_, rfl⟩
  simp only [runClassify, phase1, hs]
  simp

/-- Witness for C1's amended theorem at the concrete escalated video. -/
theorem C1_low_conf_path_witness :
    runClassify false (fun _ => GPTResponse.netError) (1/2) [videoC1] {} =
      ([lowConfFallback videoC1], {}) :=
  (C1_low_conf_path videoC1 (fun _ => GPTResponse.netError) (1/2) {}
    lowConfResult (by rfl) (by norm_num [lowConfResult]) rfl).1

/-! ## C2: which classification fields are overwritten on each path -/

/-- A keyword-free video carrying stale partner and category values from an
earlier classification. -/
def videoC2 : Video :=
  { video_id := "c2", title := "Quarterly Roadmap Briefing",
    collab_partner := some "STALE-PARTNER", collab_category := some "STALE-CAT" }

/-- C2 counterexample: on the Reject terminal path the persisted record keeps
its previous partner and category values — the classification block is not
fully overwritten on every terminal path. -/
theorem C2_counterexample :
    (runClassify false (fun _ => GPTResponse.netError) (1/2) [videoC2] {}).1 =
      [rejectVideo videoC2] ∧
    (rejectVideo videoC2).classification_method = some "rule" ∧
    (rejectVideo videoC2).collab_partner = some "STALE-PARTNER" ∧
    (rejectVideo videoC2).collab_category = some "STALE-CAT" := by
  refine ⟨?_, rfl, rfl, rfl⟩
  rw [(runClassify_no_keyword videoC2 false (fun _ => GPTResponse.netError)
    (1/2) {} (by decide)).2]

/-- A full overwrite: the written record is a complete application of some
classification result via `applyResult` with method `"rule"` or `"gpt"`. -/
def FullyWritten (v w : Video) : Prop :=
  ∃ r m, w = applyResult v r m ∧ (m = "rule" ∨ m = "gpt")

/-- A partial write: only `is_collab`, `collab_confidence` and
`classification_method` are assigned; partner, category, region and summary
keep the video's previous values. -/
def PartialWritten (v w : Video) : Prop :=
  w.collab_partner = v.collab_partner ∧
  w.collab_category = v.collab_category ∧
  w.collab_region = v.collab_region ∧
  w.collab_summary = v.collab_summary ∧
  (w.classification_method = some "rule" ∨
   w.classification_method = some "rule_fallback" ∨
   w.classification_method = some "rule_low_conf")

/-- C2 amended: every record persisted by a classification pass comes from an
input video and is either a full overwrite of all seven classification fields
(the confident-rule and GPT-success paths) or a three-field partial write
that retains the previous partner, category, region and summary (the Reject,
GPT-failure and no-AI low-confidence paths). -/
theorem C2_overwrite_by_path (useGpt : Bool) (respond : ℕ → GPTResponse)
    (threshold : ℚ) (videos : List Video) (st : GPTState) (w : Video)
    (h : w ∈ (runClassify useGpt respond threshold videos st).1) :
    ∃ v ∈ videos, FullyWritten v w ∨ PartialWritten v w := by
  unfold runClassify at h
  cases useGpt with
  | false =>
    simp only [Bool.false_eq_true, if_false, List.mem_append] at h
    cases h with
    | inl h =>
      obtain ⟨v, hv, hw⟩ := phase1_mem_written h
      refine ⟨v, hv, ?_⟩
      cases ruleStep_write_cases hw with
      | inl hr =>
        obtain ⟨r, _, _, hwr⟩ := hr
        exact Or.inl ⟨r, "rule", hwr, Or.inl rfl⟩
      | inr hr =>
        subst hr
        exact Or.inr ⟨rfl, rfl, rfl, rfl, Or.inl rfl⟩
    | inr h =>
      rw [List.mem_map] at h
      obtain ⟨v, hv, hw⟩ := h
      refine ⟨v, (phase1_mem_queue hv).1, Or.inr ?_⟩
      subst hw
      exact ⟨rfl, rfl, rfl, rfl, Or.inr (Or.inr rfl)⟩
  | true =>
    simp only [eq_self_iff_true, if_true, List.mem_append] at h
    cases h with
    | inl h =>
      obtain ⟨v, hv, hw⟩ := phase1_mem_written h
      refine ⟨v, hv, ?_⟩
      cases ruleStep_write_cases hw with
      | inl hr =>
        obtain ⟨r, _, _, hwr⟩ := hr
        exact Or.inl ⟨r, "rule", hwr, Or.inl rfl⟩
      | inr hr =>
        subst hr
        exact Or.inr ⟨rfl, rfl, rfl, rfl, Or.inl rfl⟩
    | inr h =>
      obtain ⟨v, hv, hw⟩ := phase2_mem_written h
      refine ⟨v, (phase1_mem_queue hv).1, ?_⟩
      cases hw with
      | inl hg =>
        obtain ⟨g, hg⟩ := hg
        exact Or.inl ⟨g, "gpt", hg, Or.inr rfl⟩
      | inr hg =>
        subst hg
        exact Or.inr ⟨rfl, rfl, rfl, rfl, Or.inr (Or.inl rfl)⟩

/-- Witness for C2's amended theorem: the rejected keyword-free video is a
partial write from its input video. -/
theorem C2_overwrite_by_path_witness :
    ∃ v ∈ [videoC2], FullyWritten v (rejectVideo videoC2) ∨
      PartialWritten v (rejectVideo videoC2) :=
  C2_overwrite_by_path false (fun _ => GPTResponse.netError) (1/2) [videoC2] {}
    (rejectVideo videoC2)
    (by
      rw [(runClassify_no_keyword videoC2 false (fun _ => GPTResponse.netError)
        (1/2) {} (by decide)).2]
      simp)

/-! ## C3: malformed classifier responses -/

/-- An escalated video for the malformed-response scenario. -/
def videoC3 : Video :=
  { video_id := "c3", title := "Something Special Coming Soon!!" }

/-- C3 counterexample: when every network response is malformed, the call is
not retried (exactly one network invocation) and the orchestrator persists
the parse-failure default — `is_collab = false`, confidence 0, method
`"gpt"` — not the claimed `is_collab = true` / 0.3 / `"rule_fallback"`
fallback. -/
theorem C3_counterexample :
    runClassify true (fun _ => GPTResponse.malformed) (1/2) [videoC3] {} =
      ([applyResult videoC3 parseFailResult "gpt"], { cache := [], netCalls := 1 }) ∧
    (applyResult videoC3 parseFailResult "gpt").is_collab = false ∧
    (applyResult videoC3 parseFailResult "gpt").collab_confidence = 0 ∧
    (applyResult videoC3 parseFailResult "gpt").classification_method = some "gpt" ∧
    ¬(applyResult videoC3 parseFailResult "gpt").classification_method =
        some "rule_fallback" ∧
    ¬(applyResult videoC3 parseFailResult "gpt").is_collab = true := by
  have h : ruleBasedClassify videoC3.title (videoC3.description.getD "") =
      some lowConfResult := by rfl
  have hs : ruleStep (1/2) videoC3 = .enqueue := by
    unfold ruleStep
    rw [h]
    norm_num [lowConfResult]
  refine ⟨?_, rfl, rfl, rfl, by decide, by decide⟩
  simp only [runClassify, phase1, hs]
  simp only [eq_self_iff_true, if_true]
  rfl

/-- C3 amended, part structure: (1) an unparseable response is not treated as
a failed call — `classify_collab` returns the parse-failure default
(`is_collab = false`, confidence 0) after a single network invocation,
caching nothing, and the orchestrator persists it verbatim with method
`"gpt"`; (2) only raised exceptions are retried, and after three failed
attempts the orchestrator applies the fallback `is_collab = true`,
confidence 0.3, method `"rule_fallback"`. -/
theorem C3_malformed_vs_exception :
    (∀ (respond : ℕ → GPTResponse) (title desc : String) (st : GPTState),
      lookupCache st (cacheKey title desc) = none →
      respond st.netCalls = .malformed →
      gptClassify respond title desc st =
        (some parseFailResult, { st with netCalls := st.netCalls + 1 })) ∧
    (∀ (v : Video) (respond : ℕ → GPTResponse) (threshold : ℚ) (st : GPTState)
       (r : CollabClassification),
      ruleBasedClassify v.title (v.description.getD "") = some r →
      r.confidence < threshold → r.is_collab = true →
      lookupCache st (cacheKey v.title (v.description.getD "")) = none →
      respond st.netCalls = .netError →
      respond (st.netCalls + 1) = .netError →
      respond (st.netCalls + 2) = .netError →
      runClassify true respond threshold [v] st =
        ([gptFailureFallback v], { st with netCalls := st.netCalls + 3 })) := by
  constructor
  · intro respond title desc st hmiss hmal
    simp only [gptClassify, hmiss, gptAttempts, hmal]
  · intro v respond threshold st r h hconf hcol hmiss h0 h1 h2
    have hs : ruleStep threshold v = .enqueue := by
      unfold ruleStep
      rw [h]
      simp only [if_neg (not_le.mpr hconf), if_pos hcol]
    have hg : gptClassify respond v.title (v.description.getD "") st =
        (none, { st with netCalls := st.netCalls + 3 }) := by
      simp only [gptClassify, hmiss, gptAttempts, h0]
      simp only [show (2 : ℕ) ≠ 0 by decide, if_neg, h1]
      simp only [show (1 : ℕ) ≠ 0 by decide, if_neg, h2]
      simp
    simp only [runClassify, phase1, hs, phase2, gptStep, hg]
    simp

/-- Witness for C3's amended theorem: one malformed response at an empty
cache, and three consecutive network failures on the escalated video. -/
theorem C3_malformed_vs_exception_witness :
    gptClassify (fun _ => GPTResponse.malformed) "T" "D" {} =
      (some parseFailResult, { cache := [], netCalls := 1 }) ∧
    runClassify true (fun _ => GPTResponse.netError) (1/2) [videoC3] {} =
      ([gptFailureFallback videoC3], { cache := [], netCalls := 3 }) :=
  ⟨C3_malformed_vs_exception.1 (fun _ => GPTResponse.malformed) "T" "D" {} rfl rfl,
   C3_malformed_vs_exception.2 videoC3 (fun _ => GPTResponse.netError) (1/2) {}
     lowConfResult (by rfl) (by norm_num [lowConfResult]) rfl rfl rfl rfl rfl⟩

/-! ## C4: response caching for identical inputs -/

/-- C4 counterexample: two calls with the identical (title, truncated
description) pair can invoke the network twice — a malformed first response
is returned without being cached, so the second identical call goes to the
network again. -/
theorem C4_counterexample :
    (gptClassify (fun _ => GPTResponse.malformed) "T" "D"
      (gptClassify (fun _ => GPTResponse.malformed) "T" "D" {}).2).2.netCalls = 2 ∧
    ¬(gptClassify (fun _ => GPTResponse.malformed) "T" "D"
      (gptClassify (fun _ => GPTResponse.malformed) "T" "D" {}).2).2.netCalls ≤ 1 := by
  decide

/-- A cache whose head entry carries the looked-up key serves that entry. -/
theorem lookupCache_cons_self (key : String)
    (rest : List (String × CollabClassification)) (n : ℕ)
    (r : CollabClassification) :
    lookupCache { cache := (key, r) :: rest, netCalls := n } key = some r := by
  show Option.map (fun e => e.2)
      (List.find? (fun e => e.1 == key) ((key, r) :: rest)) = some r
  rw [List.find?_cons]
  simp only [beq_self_eq_true, cond_true]
  rfl

/-- A cache hit returns the cached classification and leaves the state
unchanged (no network invocation). -/
theorem gptClassify_cache_hit (respond : ℕ → GPTResponse) (title desc : String)
    (st : GPTState) (r : CollabClassification)
    (h : lookupCache st (cacheKey title desc) = some r) :
    gptClassify respond title desc st = (some r, st) := by
  simp only [gptClassify, h]

/-- A cache miss answered by a parseable response makes exactly one network
invocation and caches the parsed result under the input-text key. -/
theorem gptClassify_miss_valid (respond : ℕ → GPTResponse) (title desc : String)
    (st : GPTState) (r : CollabClassification)
    (hmiss : lookupCache st (cacheKey title desc) = none)
    (h : respond st.netCalls = .valid r) :
    gptClassify respond title desc st =
      (some r, { cache := (cacheKey title desc, r) :: st.cache,
                 netCalls := st.netCalls + 1 }) := by
  simp only [gptClassify, hmiss, gptAttempts, h]

/-- C4 amended: provided the response to the first (cache-missing) call
parses, two calls with the identical (title, truncated-description) pair
invoke the network at most once in total: the first call's parsed result is
cached under the input text and the second call is served from the cache
with no further network invocation and the same result. -/
theorem C4_cache_single_invocation (respond : ℕ → GPTResponse)
    (title desc : String) (st : GPTState) (r : CollabClassification)
    (h : respond st.netCalls = .valid r) :
    (gptClassify respond title desc
        (gptClassify respond title desc st).2).2.netCalls =
      (gptClassify respond title desc st).2.netCalls ∧
    (gptClassify respond title desc st).2.netCalls ≤ st.netCalls + 1 ∧
    (gptClassify respond title desc
        (gptClassify respond title desc st).2).1 =
      (gptClassify respond title desc st).1 := by
  cases hmiss : lookupCache st (cacheKey title desc) with
  | some c =>
    have h1 := gptClassify_cache_hit respond title desc st c hmiss
    simp only [h1]
    simp
  | none =>
    have h1 := gptClassify_miss_valid respond title desc st r hmiss h
    have h2 := lookupCache_cons_self (cacheKey title desc) st.cache (st.netCalls + 1) r
    have h3 := gptClassify_cache_hit respond title desc _ r h2
    simp only [h1, h3]
    simp

/-- Witness for C4's amended theorem: one valid response, two identical
calls, one network invocation. -/
theorem C4_cache_single_invocation_witness :
    (gptClassify (fun _ => GPTResponse.valid lowConfResult) "T" "D"
        (gptClassify (fun _ => GPTResponse.valid lowConfResult) "T" "D" {}).2).2.netCalls =
      (gptClassify (fun _ => GPTResponse.valid lowConfResult) "T" "D" {}).2.netCalls ∧
    (gptClassify (fun _ => GPTResponse.valid lowConfResult) "T" "D" {}).2.netCalls ≤ 0 + 1 :=
  ⟨(C4_cache_single_invocation (fun _ => GPTResponse.valid lowConfResult)
      "T" "D" {} lowConfResult rfl).1,
   (C4_cache_single_invocation (fun _ => GPTResponse.valid lowConfResult)
      "T" "D" {} lowConfResult rfl).2.1⟩

/-! ## C5: partner normalizer idempotence -/

/-- A collab video whose partner is the surface spelling "Black Pink". -/
def videoC5 : Video :=
  { video_id := "c5", is_collab := true, collab_partner := some "Black Pink" }

/-- C5 counterexample: after one normalization pass has canonicalized
"Black Pink" to "BLACKPINK", a second pass builds a non-empty rename map
(the canonical name matches its own alias) and re-updates the video — the
second rename map is not empty and an update is made. -/
theorem C5_counterexample :
    (normalizePartners partnerAliases [videoC5]).2 = [("Black Pink", "BLACKPINK")] ∧
    (normalizePartners partnerAliases [videoC5]).1 =
      [{ videoC5 with collab_partner := some "BLACKPINK" }] ∧
    (normalizePartners partnerAliases
      (normalizePartners partnerAliases [videoC5]).1).2 =
      [("BLACKPINK", "BLACKPINK")] ∧
    ¬(normalizePartners partnerAliases
      (normalizePartners partnerAliases [videoC5]).1).2 = [] ∧
    normUpdateCount partnerAliases (normalizePartners partnerAliases [videoC5]).1 = 1 := by
  refine ⟨by decide, by decide, by decide, by decide, by decide⟩

/-- Every canonical name of the shipped alias table resolves to itself
(checked by computation over the whole table). -/
theorem aliasCanonicalFixed :
    partnerAliases.all
      (fun ac => resolvePartnerAlias partnerAliases ac.2 == some ac.2) = true := by
  decide

/-- A successful alias resolution returns a canonical value of the table. -/
theorem resolve_mem {aliases : List (String × String)} {p c : String}
    (h : resolvePartnerAlias aliases p = some c) : ∃ a, (a, c) ∈ aliases := by
  simp only [resolvePartnerAlias] at h
  cases hf : aliases.find?
      (fun ac => strIn ac.1 (pyStrip (pyLower p)) || strIn (pyStrip (pyLower p)) ac.1) with
  | some e =>
    rw [hf] at h
    injection h with h
    subst h
    exact ⟨e.1, List.mem_of_find?_eq_some hf⟩
  | none => rw [hf] at h; cases h

/-- On the shipped alias table, the resolved canonical name is a fixed point
of resolution. -/
theorem resolve_fixed {p c : String}
    (h : resolvePartnerAlias partnerAliases p = some c) :
    resolvePartnerAlias partnerAliases c = some c := by
  obtain ⟨a, ha⟩ := resolve_mem h
  have hall := aliasCanonicalFixed
  rw [List.all_eq_true] at hall
  have h2 := hall (a, c) ha
  simpa using h2

/-- Every entry of the rename map pairs a truthy partner of some input video
with its alias resolution. -/
theorem normMap_mem {aliases : List (String × String)} {videos : List Video}
    {e : String × String} (h : e ∈ normMapFor aliases videos) :
    (∃ v ∈ videos, truthyPartner v = some e.1) ∧
    resolvePartnerAlias aliases e.1 = some e.2 := by
  simp only [normMapFor, List.mem_filterMap, List.mem_dedup] at h
  obtain ⟨p, hp, hmap⟩ := h
  cases hr : resolvePartnerAlias aliases p with
  | some c =>
    rw [hr] at hmap
    injection hmap with hmap
    subst hmap
    exact ⟨hp, hr⟩
  | none => rw [hr] at hmap; cases hmap

/-- Completeness of the rename map: any truthy partner of an input video
that resolves contributes its entry. -/
theorem normMap_complete {aliases : List (String × String)} {videos : List Video}
    {v : Video} {p c : String} (hv : v ∈ videos) (hp : truthyPartner v = some p)
    (hr : resolvePartnerAlias aliases p = some c) :
    (p, c) ∈ normMapFor aliases videos := by
  simp only [normMapFor, List.mem_filterMap, List.mem_dedup]
  exact ⟨p, ⟨v, hv, hp⟩, by rw [hr]; rfl⟩

/-- Applying the rename map to a partner-less video is the identity. -/
theorem applyNormMap_no_partner {m : List (String × String)} {v : Video}
    (h : v.collab_partner = none) : applyNormMap m v = v := by
  simp only [applyNormMap, h, Option.none_bind]

/-- Applying the rename map to a video whose partner is not a key is the
identity. -/
theorem applyNormMap_no_key {m : List (String × String)} {v : Video} {p : String}
    (hp : v.collab_partner = some p)
    (hf : m.find? (fun e => e.1 == p) = none) : applyNormMap m v = v := by
  simp only [applyNormMap, hp, Option.some_bind, hf, Option.map_none']

/-- Applying the rename map to a video whose partner is a found key replaces
the partner by the entry's canonical name. -/
theorem applyNormMap_found {m : List (String × String)} {v : Video} {p : String}
    {e : String × String} (hp : v.collab_partner = some p)
    (hf : m.find? (fun x => x.1 == p) = some e) :
    applyNormMap m v = { v with collab_partner := some e.2 } := by
  simp only [applyNormMap, hp, Option.some_bind, hf, Option.map_some']

/-- Writing a video's own partner value back is the identity. -/
theorem setPartner_self {v : Video} {c : Option String}
    (h : v.collab_partner = c) : { v with collab_partner := c } = v := by
  cases v
  simp only at h
  simp only [h]

/-- Every entry of the second-pass rename map is an identity entry: the first
pass left only alias-free names and canonical names, and (on the shipped
table) every canonical name resolves to itself. -/
theorem secondPassMap_identity {videos : List Video} {e : String × String}
    (h : e ∈ normMapFor partnerAliases
      (normalizePartners partnerAliases videos).1) : e.1 = e.2 := by
  obtain ⟨⟨w, hw, hwp⟩, hres⟩ := normMap_mem h
  simp only [normalizePartners, List.mem_map] at hw
  obtain ⟨v, hv, hva⟩ := hw
  cases hvp : v.collab_partner with
  | none =>
    rw [applyNormMap_no_partner hvp] at hva
    subst hva
    rw [truthyPartner, hvp] at hwp
    cases hwp
  | some p =>
    cases hf : (normMapFor partnerAliases videos).find? (fun x => x.1 == p) with
    | some entry =>
      rw [applyNormMap_found hvp hf] at hva
      subst hva
      rw [truthyPartner] at hwp
      simp only at hwp
      have he1 : e.1 = entry.2 := by
        by_cases hz : entry.2 = ""
        · rw [if_pos hz] at hwp; cases hwp
        · rw [if_neg hz] at hwp; injection hwp with hwp; exact hwp.symm
      have hentry := List.mem_of_find?_eq_some hf
      have hres1 := (normMap_mem hentry).2
      have hfix := resolve_fixed hres1
      rw [he1] at hres
      rw [hres] at hfix
      injection hfix with hfix
      rw [he1, hfix]
    | none =>
      rw [applyNormMap_no_key hvp hf] at hva
      subst hva
      rw [truthyPartner, hvp] at hwp
      simp only at hwp
      have he1 : e.1 = p := by
        by_cases hz : p = ""
        · rw [if_pos hz] at hwp; cases hwp
        · rw [if_neg hz] at hwp; injection hwp with hwp; exact hwp.symm
      have hpne : p ≠ "" := by
        intro hz
        rw [if_pos hz] at hwp
        cases hwp
      have hmem : (p, e.2) ∈ normMapFor partnerAliases videos :=
        normMap_complete hv
          (by rw [truthyPartner, hvp]; simp only [if_neg hpne])
          (by rw [← he1]; exact hres)
      rw [List.find?_eq_none] at hf
      exact absurd (by simp : ((p, e.2).1 == p) = true) (hf _ hmem)

/-- Mapping a function that fixes every member is the identity. -/
theorem mapEqSelf {α : Type} {l : List α} {f : α → α}
    (h : ∀ a ∈ l, f a = a) : l.map f = l := by
  induction l with
  | nil => rfl
  | cons a rest ih =>
    simp only [List.map_cons, h a (by simp), List.cons.injEq, true_and]
    exact ih (fun b hb => h b (by simp [hb]))

/-- C5 amended: with the shipped alias table the normalizer is idempotent on
the video set — a second pass changes no video's `collab_partner` (its output
equals its input) — but the second pass's rename map consists of identity
entries for the canonical names present (it is not in general empty, and the
matching videos are re-written with their unchanged values). -/
theorem C5_normalize_idempotent_values (videos : List Video) :
    (normalizePartners partnerAliases
      (normalizePartners partnerAliases videos).1).1 =
      (normalizePartners partnerAliases videos).1 ∧
    ∀ e ∈ (normalizePartners partnerAliases
      (normalizePartners partnerAliases videos).1).2, e.1 = e.2 := by
  constructor
  · show ((normalizePartners partnerAliases videos).1.map
      (applyNormMap (normMapFor partnerAliases
        (normalizePartners partnerAliases videos).1))) =
      (normalizePartners partnerAliases videos).1
    apply mapEqSelf
    intro w hw
    cases hwp : w.collab_partner with
    | none => exact applyNormMap_no_partner hwp
    | some s =>
      cases hf : (normMapFor partnerAliases
          (normalizePartners partnerAliases videos).1).find?
          (fun x => x.1 == s) with
      | none => exact applyNormMap_no_key hwp hf
      | some entry =>
        have hmem := List.mem_of_find?_eq_some hf
        have hid : entry.1 = entry.2 := secondPassMap_identity hmem
        have hkey : entry.1 = s := by
          have := List.find?_some hf
          simpa using this
        rw [applyNormMap_found hwp hf, ← hid, hkey]
        exact setPartner_self hwp
  · intro e he
    exact secondPassMap_identity he

/-- Witness for C5's amended theorem at the "Black Pink" video. -/
theorem C5_normalize_idempotent_values_witness :
    (normalizePartners partnerAliases
      (normalizePartners partnerAliases [videoC5]).1).1 =
      (normalizePartners partnerAliases [videoC5]).1 ∧
    ("BLACKPINK", "BLACKPINK").1 = ("BLACKPINK", "BLACKPINK").2 :=
  ⟨(C5_normalize_idempotent_values [videoC5]).1,
   (C5_normalize_idempotent_values [videoC5]).2 ("BLACKPINK", "BLACKPINK")
     (by decide)⟩

/-! ## C6: the classification invariant -/

/-- A single-video batch whose rule result is escalated and the AI
unavailable is persisted through the `rule_low_conf` write-back. -/
theorem runClassify_escalated_noGpt (v : Video) (respond : ℕ → GPTResponse)
    (threshold : ℚ) (st : GPTState) (r : CollabClassification)
    (h : ruleBasedClassify v.title (v.description.getD "") = some r)
    (hconf : r.confidence < threshold) (hcol : r.is_collab = true) :
    runClassify false respond threshold [v] st = ([lowConfFallback v], st) := by
  have hs : ruleStep threshold v = .enqueue := by
    unfold ruleStep
    rw [h]
    simp only [if_neg (not_le.mpr hconf), if_pos hcol]
  simp only [runClassify, phase1, hs]
  simp

/-- The invariant of the `Video` classification block: a collab-positive
record has positive confidence, and a classified record has a non-null
method. -/
def ClassifiedOK (v : Video) : Prop :=
  (v.is_collab = true → 0 < v.collab_confidence) ∧ v.classification_method ≠ none

/-- The escalated video for the zero-confidence AI response scenario. -/
def videoC6 : Video :=
  { video_id := "c6", title := "Something Special Coming Soon!!" }

/-- A well-formed classifier response asserting a collab at confidence 0
(every field within the `CollabClassification` schema). -/
def gptC6 : CollabClassification := { is_collab := true, confidence := 0 }

/-- C6 counterexample: the orchestrator persists a well-formed AI response
with `is_collab = true` and confidence 0 verbatim, violating the claimed
invariant `is_collab = true → collab_confidence > 0`. -/
theorem C6_counterexample :
    (runClassify true (fun _ => GPTResponse.valid gptC6) (1/2) [videoC6] {}).1 =
      [applyResult videoC6 gptC6 "gpt"] ∧
    (applyResult videoC6 gptC6 "gpt").is_collab = true ∧
    (applyResult videoC6 gptC6 "gpt").collab_confidence = 0 ∧
    ¬(0 : ℚ) < (applyResult videoC6 gptC6 "gpt").collab_confidence := by
  have h : ruleBasedClassify videoC6.title (videoC6.description.getD "") =
      some lowConfResult := by rfl
  have hs : ruleStep (1/2) videoC6 = .enqueue := by
    unfold ruleStep
    rw [h]
    norm_num [lowConfResult]
  have hg : gptClassify (fun _ => GPTResponse.valid gptC6) videoC6.title
      (videoC6.description.getD "") ({} : GPTState) =
      (some gptC6, { cache := [(cacheKey videoC6.title (videoC6.description.getD ""), gptC6)],
                     netCalls := 1 }) :=
    gptClassify_miss_valid _ _ _ {} gptC6 rfl rfl
  refine ⟨?_, rfl, rfl, by norm_num [applyResult, gptC6]⟩
  simp only [runClassify, phase1, hs]
  simp only [eq_self_iff_true, if_true, phase2, gptStep, hg]
  simp

/-- Every record written by phase 2 satisfies the invariant, when the
environment's responses and the starting cache are collab-positivity
sound. -/
theorem phase2_sound {respond : ℕ → GPTResponse} (hresp : RespOK respond) :
    ∀ (qs : List Video) (st : GPTState), CacheOK st →
      ∀ w ∈ (phase2 respond qs st).1, ClassifiedOK w := by
  intro qs
  induction qs with
  | nil => intro st hc w hw; simp [phase2] at hw
  | cons v rest ih =>
    intro st hc w hw
    simp only [phase2, List.mem_cons] at hw
    rcases hq : gptClassify respond v.title (v.description.getD "") st with ⟨res, st2⟩
    have hsound := gptClassify_sound hresp hc hq
    cases res with
    | some g =>
      have hstep : gptStep respond v st = (applyResult v g "gpt", st2) := by
        unfold gptStep
        rw [hq]
      rw [hstep] at hw
      cases hw with
      | inl hw =>
        subst hw
        exact ⟨fun hb => hsound.2 g rfl hb, by simp [applyResult]⟩
      | inr hw => exact ih st2 hsound.1 w hw
    | none =>
      have hstep : gptStep respond v st = (gptFailureFallback v, st2) := by
        unfold gptStep
        rw [hq]
      rw [hstep] at hw
      cases hw with
      | inl hw =>
        subst hw
        exact ⟨fun _ => by norm_num [gptFailureFallback], by simp [gptFailureFallback]⟩
      | inr hw => exact ih st2 hsound.1 w hw

/-- C6 amended: after any classification pass every persisted record
satisfies the invariant — `is_collab = true` implies positive confidence and
the method is non-null — provided every classifier response (and cached
response) that asserts a collab carries positive confidence; the rule-only
paths need no proviso. -/
theorem C6_classification_invariant (useGpt : Bool) (respond : ℕ → GPTResponse)
    (threshold : ℚ) (videos : List Video) (st : GPTState)
    (hresp : RespOK respond) (hcache : CacheOK st) :
    ∀ w ∈ (runClassify useGpt respond threshold videos st).1, ClassifiedOK w := by
  intro w hw
  unfold runClassify at hw
  have hphase1 : ∀ u, u ∈ (phase1 threshold videos).1 → ClassifiedOK u := by
    intro u hu
    obtain ⟨v, _, hwrite⟩ := phase1_mem_written hu
    cases ruleStep_write_cases hwrite with
    | inl hr =>
      obtain ⟨r, hrule, _, hru⟩ := hr
      obtain ⟨hcol, hpos⟩ := ruleBasedClassify_pos hrule
      subst hru
      exact ⟨fun _ => hpos, by simp [applyResult]⟩
    | inr hr =>
      subst hr
      exact ⟨fun hb => by simp [rejectVideo] at hb, by simp [rejectVideo]⟩
  cases useGpt with
  | false =>
    simp only [Bool.false_eq_true, if_false, List.mem_append] at hw
    cases hw with
    | inl hw => exact hphase1 w hw
    | inr hw =>
      rw [List.mem_map] at hw
      obtain ⟨v, _, hv⟩ := hw
      subst hv
      exact ⟨fun _ => by norm_num [lowConfFallback], by simp [lowConfFallback]⟩
  | true =>
    simp only [eq_self_iff_true, if_true, List.mem_append] at hw
    cases hw with
    | inl hw => exact hphase1 w hw
    | inr hw => exact phase2_sound hresp _ st hcache w hw

/-- Witness for C6's amended theorem: the no-AI escalated video is persisted
through the invariant-preserving `rule_low_conf` write-back. -/
theorem C6_classification_invariant_witness : ClassifiedOK (lowConfFallback videoC6) :=
  C6_classification_invariant false (fun _ => GPTResponse.netError) (1/2)
    [videoC6] {} (fun _ r h => by cases h) (fun e he => by cases he)
    (lowConfFallback videoC6)
    (by
      rw [runClassify_escalated_noGpt videoC6 (fun _ => GPTResponse.netError)
        (1/2) {} lowConfResult (by rfl) (by norm_num [lowConfResult]) rfl]
      simp)
